import Mathlib

/-!
Verification development for the helpdesk ticket service.

The definitions below are a shallow embedding of the JavaScript source:
  * the Mongoose ticket schema and its pre-save hook (models/Ticket.js),
  * the Comment and Timeline collections,
  * the Express route handlers in routes/tickets.js,
  * the idempotency middleware (middleware/idempotency.js) together with its
    mounting position in the application entry point.

Timestamps are JavaScript epoch milliseconds modelled as `Nat`.  MongoDB
ObjectIds are modelled as `Nat` identifiers.  Human-readable description
strings on timeline events are display-only and are not modelled; events keep
their ticket reference, acting user, action tag and (for field updates) the
changed field name.
-/

/-- Ticket status enumeration from the schema: open, in_progress, pending,
resolved, closed.  `open` is a Lean keyword, hence the trailing underscore. -/
inductive Status where
  | open_
  | in_progress
  | pending
  | resolved
  | closed
deriving DecidableEq, Repr

/-- Parsing of a request status string, as in the route's validStatuses check. -/
def Status.ofString : String → Option Status
  | "open" => some Status.open_
  | "in_progress" => some Status.in_progress
  | "pending" => some Status.pending
  | "resolved" => some Status.resolved
  | "closed" => some Status.closed
  | _ => none

/-- Ticket priority enumeration from the schema. -/
inductive Priority where
  | low
  | medium
  | high
  | urgent
deriving DecidableEq, Repr

/-- Parsing of a request priority string, as in the route's validPriorities check. -/
def Priority.ofString : String → Option Priority
  | "low" => some Priority.low
  | "medium" => some Priority.medium
  | "high" => some Priority.high
  | "urgent" => some Priority.urgent
  | _ => none

/-- Ticket category enumeration from the schema. -/
inductive Category where
  | technical
  | billing
  | general
  | feature_request
deriving DecidableEq, Repr

/-- User roles. -/
inductive Role where
  | user
  | agent
  | admin
deriving DecidableEq, Repr

/-- Comment types: comment or internal_note. -/
inductive CommentType where
  | comment
  | internal_note
deriving DecidableEq, Repr

/-- Response-hours table from the sla.responseTime schema default:
low=48, medium=24, high=8, urgent=2. -/
def responseHours : Priority → Nat
  | Priority.low => 48
  | Priority.medium => 24
  | Priority.high => 8
  | Priority.urgent => 2

/-- Resolution-hours table from the sla.resolutionTime schema default:
low=168, medium=72, high=24, urgent=8. -/
def resolutionHours : Priority → Nat
  | Priority.low => 168
  | Priority.medium => 72
  | Priority.high => 24
  | Priority.urgent => 8

/-- The sla sub-document of a ticket. -/
structure SLA where
  responseTime : Nat
  resolutionTime : Nat
  responseDeadline : Nat
  resolutionDeadline : Nat
  isResponseBreached : Bool
  isResolutionBreached : Bool
deriving DecidableEq, Repr

/-- A stored ticket document. -/
structure Ticket where
  id : Nat
  title : String
  description : String
  status : Status
  priority : Priority
  category : Category
  createdBy : Nat
  assignedTo : Option Nat
  sla : SLA
  tags : List String
  version : Nat
  createdAt : Nat
  updatedAt : Nat
  firstResponseAt : Option Nat
  resolvedAt : Option Nat
  closedAt : Option Nat
deriving DecidableEq, Repr

/-- A user document (only the fields the ticket routes consult). -/
structure User where
  id : Nat
  name : String
  role : Role
deriving DecidableEq, Repr

/-- A comment document. -/
structure CommentDoc where
  ticket : Nat
  author : Nat
  content : String
  type : CommentType
  isFirstResponse : Bool
  createdAt : Nat
deriving DecidableEq, Repr

/-- A timeline (audit log) event.  The human-readable description string is
display-only and not modelled; `field` records the changed field name carried
in the details payload of per-field update events. -/
structure TimelineEvent where
  ticket : Nat
  user : Nat
  action : String
  field : Option String
deriving DecidableEq, Repr

/-- First stage of the ticket pre-save hook: on a new document the SLA
deadlines are set to now plus the stored hour figures (in milliseconds). -/
def hookNewDeadlines (isNew : Bool) (now : Nat) (t : Ticket) : Ticket :=
  if isNew then
    { t with sla := { t.sla with
        responseDeadline := now + t.sla.responseTime * 60 * 60 * 1000,
        resolutionDeadline := now + t.sla.resolutionTime * 60 * 60 * 1000 } }
  else t

/-- Second stage of the pre-save hook: when the document is modified and not
new, updatedAt is refreshed and version is incremented by one. -/
def hookVersionBump (modified : Bool) (now : Nat) (t : Ticket) : Ticket :=
  if modified then { t with updatedAt := now, version := t.version + 1 } else t

/-- Third stage of the pre-save hook: when status is modified and now equals
resolved with no resolvedAt yet, resolvedAt is set (first write wins). -/
def hookResolvedAt (statusModified : Bool) (now : Nat) (t : Ticket) : Ticket :=
  if statusModified && t.status == Status.resolved && t.resolvedAt.isNone then
    { t with resolvedAt := some now }
  else t

/-- Fourth stage of the pre-save hook: closedAt analogue of hookResolvedAt. -/
def hookClosedAt (statusModified : Bool) (now : Nat) (t : Ticket) : Ticket :=
  if statusModified && t.status == Status.closed && t.closedAt.isNone then
    { t with closedAt := some now }
  else t

/-- The full pre-save hook applied by Mongoose on document save.  `orig` is
the document state as loaded (clean snapshot), `data` the state after the
handler's assignments; a path counts as modified when the two differ, which is
Mongoose's deep-equality dirty tracking. -/
def hookedSave (orig data : Ticket) (isNew : Bool) (now : Nat) : Ticket :=
  hookClosedAt (isNew || data.status != orig.status) now
    (hookResolvedAt (isNew || data.status != orig.status) now
      (hookVersionBump (!isNew && data != orig) now
        (hookNewDeadlines isNew now data)))

/-- The checkSLABreaches instance method: it sets, but never clears, the two
breach flags.  Comparison now > deadline is strict. -/
def checkSLABreaches (t : Ticket) (now : Nat) : Ticket :=
  let t1 :=
    if t.firstResponseAt.isNone && decide (t.sla.responseDeadline < now) then
      { t with sla := { t.sla with isResponseBreached := true } }
    else t
  if t1.resolvedAt.isNone && decide (t1.sla.resolutionDeadline < now) then
    { t1 with sla := { t1.sla with isResolutionBreached := true } }
  else t1

/-- The persistent store: users, tickets, comments and the append-only
timeline collection. -/
structure DB where
  users : List User
  tickets : List Ticket
  comments : List CommentDoc
  timeline : List TimelineEvent
deriving DecidableEq, Repr

/-- Ticket.findById. -/
def DB.findTicket (db : DB) (tid : Nat) : Option Ticket :=
  db.tickets.find? (fun t => t.id == tid)

/-- User.findById. -/
def DB.findUser (db : DB) (uid : Nat) : Option User :=
  db.users.find? (fun u => u.id == uid)

/-- Committing a saved document back to the store (write-back by _id). -/
def DB.saveTicket (db : DB) (t : Ticket) : DB :=
  { db with tickets := db.tickets.map (fun u => if u.id == t.id then t else u) }

/-- Number of timeline events referencing a given ticket. -/
def DB.eventCount (db : DB) (tid : Nat) : Nat :=
  (db.timeline.filter (fun e => e.ticket == tid)).length

/-- Number of comment-type comments stored for a given ticket, as counted by
the comments route's Comment.countDocuments query. -/
def DB.commentCount (db : DB) (tid : Nat) : Nat :=
  (db.comments.filter (fun c => c.ticket == tid && c.type == CommentType.comment)).length

/-- Route responses.  `ok` is a 200 success-with-ticket body, `createdTicket`
a 201, `createdComment` a 201, `bulkOk` the 200 bulk-assign body, `err` an
error body with its HTTP status and error code. -/
inductive Resp where
  | ok (ticket : Ticket)
  | createdTicket (ticket : Ticket)
  | createdComment (c : CommentDoc)
  | bulkOk (modifiedCount : Nat)
  | err (status : Nat) (code : String)
deriving DecidableEq, Repr

/-- HTTP status code carried by a response. -/
def Resp.statusCode : Resp → Nat
  | Resp.ok _ => 200
  | Resp.createdTicket _ => 201
  | Resp.createdComment _ => 201
  | Resp.bulkOk _ => 200
  | Resp.err s _ => s

/-- The body of a PATCH request: the optimistic-locking version field plus the
updatable ticket fields, each `some` when present in the request body.  For
assignedTo the inner Option is the JSON null / user-id distinction. -/
structure UpdateReq where
  version : Option Nat
  title : Option String
  description : Option String
  status : Option Status
  priority : Option Priority
  assignedTo : Option (Option Nat)
  category : Option Category
  tags : Option (List String)
deriving DecidableEq, Repr

/-- The optimistic locking guard of the PATCH route:
version !== undefined && ticket.version !== version. -/
def staleCheck (ticketVersion : Nat) (reqVersion : Option Nat) : Bool :=
  match reqVersion with
  | some v => ticketVersion != v
  | none => false

/-- Assignment of a present title field (Object.assign). -/
def applyTitle (v : Option String) (t : Ticket) : Ticket :=
  match v with | some x => { t with title := x } | none => t

/-- Assignment of a present description field. -/
def applyDescription (v : Option String) (t : Ticket) : Ticket :=
  match v with | some x => { t with description := x } | none => t

/-- Assignment of a present status field. -/
def applyStatus (v : Option Status) (t : Ticket) : Ticket :=
  match v with | some x => { t with status := x } | none => t

/-- Assignment of a present priority field. -/
def applyPriority (v : Option Priority) (t : Ticket) : Ticket :=
  match v with | some x => { t with priority := x } | none => t

/-- Assignment of a present assignedTo field. -/
def applyAssignedTo (v : Option (Option Nat)) (t : Ticket) : Ticket :=
  match v with | some x => { t with assignedTo := x } | none => t

/-- Assignment of a present category field. -/
def applyCategory (v : Option Category) (t : Ticket) : Ticket :=
  match v with | some x => { t with category := x } | none => t

/-- Assignment of a present tags field. -/
def applyTags (v : Option (List String)) (t : Ticket) : Ticket :=
  match v with | some x => { t with tags := x } | none => t

/-- Object.assign(ticket, filteredUpdates): agent/admin actors may set all
seven allowed fields, user-role owners only title and description; dropped
fields are never applied. -/
def applyUpdates (t : Ticket) (req : UpdateReq) (isAgentOrAdmin : Bool) : Ticket :=
  if isAgentOrAdmin then
    applyTags req.tags (applyCategory req.category (applyAssignedTo req.assignedTo
      (applyPriority req.priority (applyStatus req.status
        (applyDescription req.description (applyTitle req.title t))))))
  else
    applyDescription req.description (applyTitle req.title t)

/-- Change detection for title: JS strict inequality on two strings. -/
def changeTitle (v : Option String) (t : Ticket) : List String :=
  match v with
  | some x => if x != t.title then ["title"] else []
  | none => []

/-- Change detection for description. -/
def changeDescription (v : Option String) (t : Ticket) : List String :=
  match v with
  | some x => if x != t.description then ["description"] else []
  | none => []

/-- Change detection for status (stored and requested values are strings). -/
def changeStatus (v : Option Status) (t : Ticket) : List String :=
  match v with
  | some x => if x != t.status then ["status"] else []
  | none => []

/-- Change detection for priority. -/
def changePriority (v : Option Priority) (t : Ticket) : List String :=
  match v with
  | some x => if x != t.priority then ["priority"] else []
  | none => []

/-- Change detection for assignedTo: the stored value is an ObjectId (or
undefined) while the request value is a string (or null), so the JS strict
inequality ticket.assignedTo !== filteredUpdates.assignedTo is true whenever
the field is present, even when both denote the same user. -/
def changeAssignedTo (v : Option (Option Nat)) : List String :=
  match v with
  | some _ => ["assignedTo"]
  | none => []

/-- Change detection for tags: the stored Mongoose array and the freshly
parsed request array are distinct objects, so strict inequality is true
whenever the field is present. -/
def changeTags (v : Option (List String)) : List String :=
  match v with
  | some _ => ["tags"]
  | none => []

/-- Change detection for category. -/
def changeCategory (v : Option Category) (t : Ticket) : List String :=
  match v with
  | some x => if x != t.category then ["category"] else []
  | none => []

/-- The changes list of the PATCH route, one entry per present allowed field
whose requested value is strictly unequal to the stored value. -/
def patchChanges (t : Ticket) (req : UpdateReq) (isAgentOrAdmin : Bool) : List String :=
  if isAgentOrAdmin then
    changeTitle req.title t ++ changeDescription req.description t ++
      changeStatus req.status t ++ changePriority req.priority t ++
      changeAssignedTo req.assignedTo ++ changeCategory req.category t ++
      changeTags req.tags
  else
    changeTitle req.title t ++ changeDescription req.description t

/-- The PATCH /api/tickets/:id handler.  Order of checks follows the source:
not-found, optimistic-locking guard, owner/role permission, field filtering,
change detection, Object.assign plus save, then one `updated` timeline event
per detected change. -/
def patchTicket (db : DB) (actor : User) (tid : Nat) (req : UpdateReq) (now : Nat) :
    Resp × DB :=
  match db.findTicket tid with
  | none => (Resp.err 404 "TICKET_NOT_FOUND", db)
  | some t =>
    if staleCheck t.version req.version then
      (Resp.err 409 "STALE_UPDATE", db)
    else
      let isOwner := t.createdBy == actor.id
      let isAgentOrAdmin := actor.role == Role.agent || actor.role == Role.admin
      if !isOwner && !isAgentOrAdmin then
        (Resp.err 403 "FORBIDDEN", db)
      else
        let assigned := applyUpdates t req isAgentOrAdmin
        let changes := patchChanges t req isAgentOrAdmin
        let saved := hookedSave t assigned false now
        let db1 := db.saveTicket saved
        let events := changes.map (fun f =>
          { ticket := t.id, user := actor.id, action := "updated", field := some f })
        (Resp.ok saved, { db1 with timeline := db1.timeline ++ events })

/-- The POST /api/tickets handler.  `newId` models the ObjectId minted for the
new document.  Falsy (empty) title or description is rejected; priority and
category default to medium and general; the schema defaults fill the sla hour
figures from the priority; the save hook computes the initial deadlines. -/
def createTicket (db : DB) (actor : User) (newId : Nat) (title descr : String)
    (priority : Option Priority) (category : Option Category) (now : Nat) :
    Resp × DB :=
  if title == "" then (Resp.err 400 "FIELD_REQUIRED", db)
  else if descr == "" then (Resp.err 400 "FIELD_REQUIRED", db)
  else
    let p := priority.getD Priority.medium
    let t0 : Ticket := {
      id := newId, title := title, description := descr,
      status := Status.open_, priority := p,
      category := category.getD Category.general,
      createdBy := actor.id, assignedTo := none,
      sla := { responseTime := responseHours p, resolutionTime := resolutionHours p,
               responseDeadline := 0, resolutionDeadline := 0,
               isResponseBreached := false, isResolutionBreached := false },
      tags := [], version := 0, createdAt := now, updatedAt := now,
      firstResponseAt := none, resolvedAt := none, closedAt := none }
    let saved := hookedSave t0 t0 true now
    let ev : TimelineEvent :=
      { ticket := newId, user := actor.id, action := "created", field := none }
    (Resp.createdTicket saved,
      { db with tickets := db.tickets ++ [saved], timeline := db.timeline ++ [ev] })

/-- The POST /api/tickets/:id/comments handler.  The request type defaults to
`comment` at destructuring time, so `ctype` is the effective type.  The first
comment-type entry for the ticket is flagged and sets firstResponseAt via a
ticket save (which bumps the version through the hook). -/
def addComment (db : DB) (actor : User) (tid : Nat) (content : String)
    (ctype : CommentType) (now : Nat) : Resp × DB :=
  if content == "" then (Resp.err 400 "FIELD_REQUIRED", db)
  else
    match db.findTicket tid with
    | none => (Resp.err 404 "TICKET_NOT_FOUND", db)
    | some t =>
      let isOwner := t.createdBy == actor.id
      let isAgentOrAdmin := actor.role == Role.agent || actor.role == Role.admin
      if !isOwner && !isAgentOrAdmin then
        (Resp.err 403 "FORBIDDEN", db)
      else if ctype == CommentType.internal_note && actor.role == Role.user then
        (Resp.err 403 "FORBIDDEN", db)
      else
        let isFirst := db.commentCount t.id == 0 && ctype == CommentType.comment
        let c : CommentDoc := { ticket := t.id, author := actor.id, content := content,
                                type := ctype, isFirstResponse := isFirst, createdAt := now }
        let db1 := { db with comments := db.comments ++ [c] }
        let db2 :=
          if isFirst then
            db1.saveTicket (hookedSave t { t with firstResponseAt := some now } false now)
          else db1
        let ev : TimelineEvent :=
          { ticket := t.id, user := actor.id, action := "commented", field := none }
        (Resp.createdComment c, { db2 with timeline := db2.timeline ++ [ev] })

/-- Validity test used by the assignment endpoints: the assignee must resolve
to a user whose role is agent or admin. -/
def invalidAssignee (db : DB) (assignedTo : Option Nat) : Bool :=
  match assignedTo with
  | some a =>
    match db.findUser a with
    | none => true
    | some u => !(u.role == Role.agent || u.role == Role.admin)
  | none => false

/-- The POST /api/tickets/:id/assign handler.  The authorize middleware limits
it to agent/admin roles; an agent may only pass their own id; a present
assignee must be an agent or admin; the save bumps the version through the
hook when the assignee actually changes; one `assigned` event is written. -/
def assignTicket (db : DB) (actor : User) (tid : Nat) (assignedTo : Option Nat)
    (now : Nat) : Resp × DB :=
  if !(actor.role == Role.agent || actor.role == Role.admin) then
    (Resp.err 403 "FORBIDDEN", db)
  else
    match db.findTicket tid with
    | none => (Resp.err 404 "TICKET_NOT_FOUND", db)
    | some t =>
      if actor.role == Role.agent && (assignedTo.any (fun a => a != actor.id)) then
        (Resp.err 403 "FORBIDDEN", db)
      else if invalidAssignee db assignedTo then
        (Resp.err 400 "INVALID_ASSIGNEE", db)
      else
        let saved := hookedSave t { t with assignedTo := assignedTo } false now
        let ev : TimelineEvent :=
          { ticket := t.id, user := actor.id, action := "assigned", field := none }
        (Resp.ok saved,
          { db.saveTicket saved with timeline := db.timeline ++ [ev] })

/-- The POST /api/tickets/:id/status handler (agents/admins only). -/
def setStatusRoute (db : DB) (actor : User) (tid : Nat) (status : String)
    (now : Nat) : Resp × DB :=
  if !(actor.role == Role.agent || actor.role == Role.admin) then
    (Resp.err 403 "FORBIDDEN", db)
  else
    match Status.ofString status with
    | none => (Resp.err 400 "INVALID_STATUS", db)
    | some s =>
      match db.findTicket tid with
      | none => (Resp.err 404 "TICKET_NOT_FOUND", db)
      | some t =>
        let saved := hookedSave t { t with status := s } false now
        let ev : TimelineEvent :=
          { ticket := t.id, user := actor.id, action := "status_changed", field := none }
        (Resp.ok saved,
          { db.saveTicket saved with timeline := db.timeline ++ [ev] })

/-- The POST /api/tickets/:id/priority handler (agents/admins only).  Only the
priority field is assigned before the save; the route comment defers the SLA
deadline recomputation to the pre-save hook. -/
def setPriorityRoute (db : DB) (actor : User) (tid : Nat) (priority : String)
    (now : Nat) : Resp × DB :=
  if !(actor.role == Role.agent || actor.role == Role.admin) then
    (Resp.err 403 "FORBIDDEN", db)
  else
    match Priority.ofString priority with
    | none => (Resp.err 400 "INVALID_PRIORITY", db)
    | some p =>
      match db.findTicket tid with
      | none => (Resp.err 404 "TICKET_NOT_FOUND", db)
      | some t =>
        let saved := hookedSave t { t with priority := p } false now
        let ev : TimelineEvent :=
          { ticket := t.id, user := actor.id, action := "priority_changed", field := none }
        (Resp.ok saved,
          { db.saveTicket saved with timeline := db.timeline ++ [ev] })

/-- The POST /api/tickets/bulk/assign handler (admin only).  The write goes
through Ticket.updateMany, which sets assignedTo directly on every matching
document and bypasses the pre-save hook: no version bump, no updatedAt.
modifiedCount counts the documents whose stored value actually changed.  One
`assigned` event is then written per ticket id that resolves to a document. -/
def bulkAssign (db : DB) (actor : User) (ticketIds : List Nat)
    (assignedTo : Option Nat) : Resp × DB :=
  if !(actor.role == Role.admin) then
    (Resp.err 403 "FORBIDDEN", db)
  else if ticketIds.isEmpty then
    (Resp.err 400 "INVALID_INPUT", db)
  else if invalidAssignee db assignedTo then
    (Resp.err 400 "INVALID_ASSIGNEE", db)
  else
    let modified :=
      (db.tickets.filter (fun t => ticketIds.contains t.id && t.assignedTo != assignedTo)).length
    let newTickets := db.tickets.map (fun t =>
      if ticketIds.contains t.id then { t with assignedTo := assignedTo } else t)
    let db1 := { db with tickets := newTickets }
    let events := ticketIds.filterMap (fun tid =>
      match db1.findTicket tid with
      | some _ => some { ticket := tid, user := actor.id, action := "assigned",
                         field := none : TimelineEvent }
      | none => none)
    (Resp.bulkOk modified, { db1 with timeline := db1.timeline ++ events })

/-- A cached idempotency record: status code and body of the first response. -/
structure CachedResponse where
  statusCode : Nat
  body : Resp
deriving DecidableEq, Repr

/-- The store key of the idempotency middleware:
`${req.user ? req.user._id.toString() : 'anonymous'}:${idempotencyKey}`. -/
def storeKeyFor (reqUser : Option Nat) (idempotencyKey : String) : String :=
  (match reqUser with
   | some uid => toString uid
   | none => "anonymous") ++ ":" ++ idempotencyKey

/-- Application state visible to the idempotency middleware: the in-memory
cache Map plus the database. -/
structure Sys where
  idem : List (String × CachedResponse)
  db : DB
deriving DecidableEq, Repr

/-- A POST request as processed by the application pipeline of the entry
point: app.use(idempotencyMiddleware) is mounted before the routers, while
authenticate is mounted inside each router, so req.user is still undefined
when the middleware computes its store key — the userKey is therefore always
the literal 'anonymous', whichever authenticated actor later handles the
request.  On a hit the cached body is replayed and the handler never runs; on
a miss the handler runs and its response is recorded under the key. -/
def postWithIdempotency (sys : Sys) (idemKey : Option String)
    (handler : DB → Resp × DB) : Resp × Sys :=
  match idemKey with
  | none =>
    let r := handler sys.db
    (r.1, { sys with db := r.2 })
  | some k =>
    let sk := storeKeyFor none k
    match sys.idem.find? (fun e => e.1 == sk) with
    | some e => (e.2.body, sys)
    | none =>
      let r := handler sys.db
      (r.1, { idem := sys.idem ++ [(sk, { statusCode := r.1.statusCode, body := r.1 })],
              db := r.2 })

/-- A found ticket's id equals the id it was looked up by. -/
theorem findTicket_id (db : DB) (tid : Nat) (t : Ticket)
    (h : db.findTicket tid = some t) : t.id = tid := by
  have := List.find?_some h
  exact beq_iff_eq.mp this

/-- find? over an id-preserving map sends the found element through the map. -/
theorem find?_map_of_found (l : List Ticket) (tid : Nat) (t : Ticket)
    (f : Ticket → Ticket) (hf : ∀ u, (f u).id = u.id)
    (h : l.find? (fun u => u.id == tid) = some t) :
    (l.map f).find? (fun u => u.id == tid) = some (f t) := by
  induction l with
  | nil => simp at h
  | cons a as ih =>
    rw [List.find?_cons] at h
    rw [List.map_cons, List.find?_cons]
    cases hp : (a.id == tid) with
    | true =>
      rw [hp] at h
      simp only [] at h
      have hp2 : ((f a).id == tid) = true := by rw [beq_iff_eq, hf a]; exact beq_iff_eq.mp hp
      rw [hp2]
      simp only [Option.some.injEq] at h
      rw [h]
    | false =>
      rw [hp] at h
      have hp2 : ((f a).id == tid) = false := by
        rw [hf a]; exact hp
      rw [hp2]
      exact ih h

/-- Looking up a ticket after writing back a saved document with the same id
yields the saved document. -/
theorem findTicket_saveTicket (db : DB) (tid : Nat) (t saved : Ticket)
    (h : db.findTicket tid = some t) (hid : saved.id = t.id) :
    (db.saveTicket saved).findTicket tid = some saved := by
  unfold DB.findTicket DB.saveTicket
  have hf : ∀ u : Ticket, ((if u.id == saved.id then saved else u) : Ticket).id = u.id := by
    intro u
    by_cases hq : (u.id == saved.id) = true
    · simp only [hq, if_true]
      exact (beq_iff_eq.mp hq).symm
    · simp only [hq]
      simp
  have := find?_map_of_found db.tickets tid t _ hf h
  simp only [this]
  have : (t.id == saved.id) = true := beq_iff_eq.mpr hid.symm
  simp [this]

/-- saveTicket leaves every other collection untouched. -/
theorem saveTicket_frame (db : DB) (t : Ticket) :
    (db.saveTicket t).timeline = db.timeline ∧
    (db.saveTicket t).comments = db.comments ∧
    (db.saveTicket t).users = db.users := ⟨rfl, rfl, rfl⟩

/-- Appending events to the timeline adds their referencing entries to the
ticket's event count. -/
theorem eventCount_append (db : DB) (evs : List TimelineEvent) (tid : Nat) :
    ({ db with timeline := db.timeline ++ evs } : DB).eventCount tid
      = db.eventCount tid + (evs.filter (fun e => e.ticket == tid)).length := by
  unfold DB.eventCount
  simp [List.filter_append]

/-- hookResolvedAt only ever touches resolvedAt. -/
theorem hookResolvedAt_frame (b : Bool) (now : Nat) (t : Ticket) :
    (hookResolvedAt b now t).id = t.id ∧
    (hookResolvedAt b now t).version = t.version ∧
    (hookResolvedAt b now t).status = t.status ∧
    (hookResolvedAt b now t).assignedTo = t.assignedTo ∧
    (hookResolvedAt b now t).firstResponseAt = t.firstResponseAt ∧
    (hookResolvedAt b now t).sla = t.sla ∧
    (hookResolvedAt b now t).title = t.title ∧
    (hookResolvedAt b now t).updatedAt = t.updatedAt := by
  unfold hookResolvedAt
  split <;> exact ⟨rfl, rfl, rfl, rfl, rfl, rfl, rfl, rfl⟩

/-- hookClosedAt only ever touches closedAt. -/
theorem hookClosedAt_frame (b : Bool) (now : Nat) (t : Ticket) :
    (hookClosedAt b now t).id = t.id ∧
    (hookClosedAt b now t).version = t.version ∧
    (hookClosedAt b now t).status = t.status ∧
    (hookClosedAt b now t).assignedTo = t.assignedTo ∧
    (hookClosedAt b now t).firstResponseAt = t.firstResponseAt ∧
    (hookClosedAt b now t).sla = t.sla ∧
    (hookClosedAt b now t).title = t.title ∧
    (hookClosedAt b now t).updatedAt = t.updatedAt := by
  unfold hookClosedAt
  split <;> exact ⟨rfl, rfl, rfl, rfl, rfl, rfl, rfl, rfl⟩

/-- hookVersionBump only ever touches version and updatedAt. -/
theorem hookVersionBump_frame (b : Bool) (now : Nat) (t : Ticket) :
    (hookVersionBump b now t).id = t.id ∧
    (hookVersionBump b now t).status = t.status ∧
    (hookVersionBump b now t).assignedTo = t.assignedTo ∧
    (hookVersionBump b now t).firstResponseAt = t.firstResponseAt ∧
    (hookVersionBump b now t).sla = t.sla ∧
    (hookVersionBump b now t).title = t.title := by
  unfold hookVersionBump
  split <;> exact ⟨rfl, rfl, rfl, rfl, rfl, rfl⟩

/-- A save of an unmodified, not-new document is the identity: nothing in the
pre-save hook fires. -/
theorem hookedSave_self (t : Ticket) (now : Nat) : hookedSave t t false now = t := by
  unfold hookedSave hookNewDeadlines hookVersionBump hookResolvedAt hookClosedAt
  simp

/-- On a save of a modified existing document, the hook increments version by
exactly one. -/
theorem hookedSave_version (orig data : Ticket) (now : Nat) (h : data ≠ orig) :
    (hookedSave orig data false now).version = data.version + 1 := by
  unfold hookedSave
  rw [(hookClosedAt_frame _ _ _).2.1, (hookResolvedAt_frame _ _ _).2.1]
  have hb : (!false && data != orig) = true := by simp [bne_iff_ne]; exact h
  rw [hb]
  rfl

/-- The save hook never changes the document id. -/
theorem hookedSave_id (orig data : Ticket) (isNew : Bool) (now : Nat) :
    (hookedSave orig data isNew now).id = data.id := by
  unfold hookedSave
  rw [(hookClosedAt_frame _ _ _).1, (hookResolvedAt_frame _ _ _).1,
    (hookVersionBump_frame _ _ _).1]
  unfold hookNewDeadlines
  split <;> rfl

/-- The save hook never changes the status the handler assigned. -/
theorem hookedSave_status (orig data : Ticket) (isNew : Bool) (now : Nat) :
    (hookedSave orig data isNew now).status = data.status := by
  unfold hookedSave
  rw [(hookClosedAt_frame _ _ _).2.2.1, (hookResolvedAt_frame _ _ _).2.2.1,
    (hookVersionBump_frame _ _ _).2.1]
  unfold hookNewDeadlines
  split <;> rfl

/-- The save hook never changes the assignee. -/
theorem hookedSave_assignedTo (orig data : Ticket) (isNew : Bool) (now : Nat) :
    (hookedSave orig data isNew now).assignedTo = data.assignedTo := by
  unfold hookedSave
  rw [(hookClosedAt_frame _ _ _).2.2.2.1, (hookResolvedAt_frame _ _ _).2.2.2.1,
    (hookVersionBump_frame _ _ _).2.2.1]
  unfold hookNewDeadlines
  split <;> rfl

/-- The save hook never changes firstResponseAt. -/
theorem hookedSave_firstResponseAt (orig data : Ticket) (isNew : Bool) (now : Nat) :
    (hookedSave orig data isNew now).firstResponseAt = data.firstResponseAt := by
  unfold hookedSave
  rw [(hookClosedAt_frame _ _ _).2.2.2.2.1, (hookResolvedAt_frame _ _ _).2.2.2.2.1,
    (hookVersionBump_frame _ _ _).2.2.2.1]
  unfold hookNewDeadlines
  split <;> rfl

/-- On a save of an existing (not new) document the hook leaves the whole sla
sub-record — deadlines included — untouched: the deadline computation only
runs for new documents. -/
theorem hookedSave_sla_of_existing (orig data : Ticket) (now : Nat) :
    (hookedSave orig data false now).sla = data.sla := by
  unfold hookedSave
  rw [(hookClosedAt_frame _ _ _).2.2.2.2.2.1, (hookResolvedAt_frame _ _ _).2.2.2.2.2.1,
    (hookVersionBump_frame _ _ _).2.2.2.2.1]
  rfl


/-- applyTitle touches only the title. -/
theorem applyTitle_frame (v : Option String) (t : Ticket) :
    (applyTitle v t).id = t.id ∧ (applyTitle v t).version = t.version ∧
    (applyTitle v t).status = t.status ∧ (applyTitle v t).priority = t.priority ∧
    (applyTitle v t).assignedTo = t.assignedTo ∧ (applyTitle v t).category = t.category ∧
    (applyTitle v t).tags = t.tags := by
  cases v <;> exact ⟨rfl, rfl, rfl, rfl, rfl, rfl, rfl⟩

/-- applyDescription touches only the description. -/
theorem applyDescription_frame (v : Option String) (t : Ticket) :
    (applyDescription v t).id = t.id ∧ (applyDescription v t).version = t.version ∧
    (applyDescription v t).status = t.status ∧ (applyDescription v t).priority = t.priority ∧
    (applyDescription v t).assignedTo = t.assignedTo ∧ (applyDescription v t).category = t.category ∧
    (applyDescription v t).tags = t.tags := by
  cases v <;> exact ⟨rfl, rfl, rfl, rfl, rfl, rfl, rfl⟩

/-- applyStatus touches only the status. -/
theorem applyStatus_frame (v : Option Status) (t : Ticket) :
    (applyStatus v t).id = t.id ∧ (applyStatus v t).version = t.version ∧
    (applyStatus v t).assignedTo = t.assignedTo := by
  cases v <;> exact ⟨rfl, rfl, rfl⟩

/-- applyPriority touches only the priority. -/
theorem applyPriority_frame (v : Option Priority) (t : Ticket) :
    (applyPriority v t).id = t.id ∧ (applyPriority v t).version = t.version ∧
    (applyPriority v t).assignedTo = t.assignedTo := by
  cases v <;> exact ⟨rfl, rfl, rfl⟩

/-- applyAssignedTo touches only the assignee. -/
theorem applyAssignedTo_frame (v : Option (Option Nat)) (t : Ticket) :
    (applyAssignedTo v t).id = t.id ∧ (applyAssignedTo v t).version = t.version := by
  cases v <;> exact ⟨rfl, rfl⟩

/-- applyCategory touches only the category. -/
theorem applyCategory_frame (v : Option Category) (t : Ticket) :
    (applyCategory v t).id = t.id ∧ (applyCategory v t).version = t.version ∧
    (applyCategory v t).assignedTo = t.assignedTo := by
  cases v <;> exact ⟨rfl, rfl, rfl⟩

/-- applyTags touches only the tags. -/
theorem applyTags_frame (v : Option (List String)) (t : Ticket) :
    (applyTags v t).id = t.id ∧ (applyTags v t).version = t.version ∧
    (applyTags v t).assignedTo = t.assignedTo := by
  cases v <;> exact ⟨rfl, rfl, rfl⟩

/-- Applying a PATCH body never touches id or version (those are not among the
assignable fields). -/
theorem applyUpdates_frame (t : Ticket) (req : UpdateReq) (b : Bool) :
    (applyUpdates t req b).id = t.id ∧ (applyUpdates t req b).version = t.version := by
  cases b with
  | false =>
    show (applyDescription req.description (applyTitle req.title t)).id = t.id ∧
      (applyDescription req.description (applyTitle req.title t)).version = t.version
    rw [(applyDescription_frame _ _).1, (applyDescription_frame _ _).2.1,
      (applyTitle_frame _ _).1, (applyTitle_frame _ _).2.1]
    exact ⟨rfl, rfl⟩
  | true =>
    show (applyTags req.tags (applyCategory req.category (applyAssignedTo req.assignedTo
        (applyPriority req.priority (applyStatus req.status
          (applyDescription req.description (applyTitle req.title t))))))).id = t.id ∧
      (applyTags req.tags (applyCategory req.category (applyAssignedTo req.assignedTo
        (applyPriority req.priority (applyStatus req.status
          (applyDescription req.description (applyTitle req.title t))))))).version = t.version
    rw [(applyTags_frame _ _).1, (applyTags_frame _ _).2.1,
      (applyCategory_frame _ _).1, (applyCategory_frame _ _).2.1,
      (applyAssignedTo_frame _ _).1, (applyAssignedTo_frame _ _).2,
      (applyPriority_frame _ _).1, (applyPriority_frame _ _).2.1,
      (applyStatus_frame _ _).1, (applyStatus_frame _ _).2.1,
      (applyDescription_frame _ _).1, (applyDescription_frame _ _).2.1,
      (applyTitle_frame _ _).1, (applyTitle_frame _ _).2.1]
    exact ⟨rfl, rfl⟩

/-- For a user-role actor only title and description are applied, so status,
priority, assignedTo, category and tags are untouched. -/
theorem applyUpdates_user (t : Ticket) (req : UpdateReq) :
    (applyUpdates t req false).status = t.status ∧
    (applyUpdates t req false).priority = t.priority ∧
    (applyUpdates t req false).assignedTo = t.assignedTo ∧
    (applyUpdates t req false).category = t.category ∧
    (applyUpdates t req false).tags = t.tags := by
  show (applyDescription req.description (applyTitle req.title t)).status = t.status ∧
    (applyDescription req.description (applyTitle req.title t)).priority = t.priority ∧
    (applyDescription req.description (applyTitle req.title t)).assignedTo = t.assignedTo ∧
    (applyDescription req.description (applyTitle req.title t)).category = t.category ∧
    (applyDescription req.description (applyTitle req.title t)).tags = t.tags
  cases req.title <;> cases req.description <;> exact ⟨rfl, rfl, rfl, rfl, rfl⟩

/-- For an agent/admin actor a present assignedTo request value is applied
verbatim, with no check on the assignee. -/
theorem applyUpdates_assignedTo (t : Ticket) (req : UpdateReq) (v : Option Nat)
    (h : req.assignedTo = some v) :
    (applyUpdates t req true).assignedTo = v := by
  show (applyTags req.tags (applyCategory req.category (applyAssignedTo req.assignedTo
      (applyPriority req.priority (applyStatus req.status
        (applyDescription req.description (applyTitle req.title t))))))).assignedTo = v
  rw [(applyTags_frame _ _).2.2, (applyCategory_frame _ _).2.2, h]
  rfl

/-- An empty title-change entry means the title assignment is the identity. -/
theorem changeTitle_nil (v : Option String) (t : Ticket)
    (h : changeTitle v t = []) : applyTitle v t = t := by
  cases v with
  | none => rfl
  | some x =>
    simp only [changeTitle] at h
    split at h
    · simp at h
    · rename_i hb
      rw [bne_iff_ne, ne_eq, not_not] at hb
      subst hb
      rfl

/-- An empty description-change entry means the description assignment is the
identity. -/
theorem changeDescription_nil (v : Option String) (t : Ticket)
    (h : changeDescription v t = []) : applyDescription v t = t := by
  cases v with
  | none => rfl
  | some x =>
    simp only [changeDescription] at h
    split at h
    · simp at h
    · rename_i hb
      rw [bne_iff_ne, ne_eq, not_not] at hb
      subst hb
      rfl

/-- An empty status-change entry means the status assignment is the identity. -/
theorem changeStatus_nil (v : Option Status) (t : Ticket)
    (h : changeStatus v t = []) : applyStatus v t = t := by
  cases v with
  | none => rfl
  | some x =>
    simp only [changeStatus] at h
    split at h
    · simp at h
    · rename_i hb
      rw [bne_iff_ne, ne_eq, not_not] at hb
      subst hb
      rfl

/-- An empty priority-change entry means the priority assignment is the
identity. -/
theorem changePriority_nil (v : Option Priority) (t : Ticket)
    (h : changePriority v t = []) : applyPriority v t = t := by
  cases v with
  | none => rfl
  | some x =>
    simp only [changePriority] at h
    split at h
    · simp at h
    · rename_i hb
      rw [bne_iff_ne, ne_eq, not_not] at hb
      subst hb
      rfl

/-- An empty category-change entry means the category assignment is the
identity. -/
theorem changeCategory_nil (v : Option Category) (t : Ticket)
    (h : changeCategory v t = []) : applyCategory v t = t := by
  cases v with
  | none => rfl
  | some x =>
    simp only [changeCategory] at h
    split at h
    · simp at h
    · rename_i hb
      rw [bne_iff_ne, ne_eq, not_not] at hb
      subst hb
      rfl

/-- An empty assignedTo-change entry forces the field to be absent, because a
present assignedTo always registers as changed under JS strict inequality. -/
theorem changeAssignedTo_nil (v : Option (Option Nat))
    (h : changeAssignedTo v = []) : v = none := by
  cases v with
  | none => rfl
  | some x => simp [changeAssignedTo] at h

/-- An empty tags-change entry forces the field to be absent. -/
theorem changeTags_nil (v : Option (List String))
    (h : changeTags v = []) : v = none := by
  cases v with
  | none => rfl
  | some x => simp [changeTags] at h

/-- When the PATCH change list is empty, Object.assign leaves the document
exactly as it was. -/
theorem patchChanges_nil (t : Ticket) (req : UpdateReq) (b : Bool)
    (h : patchChanges t req b = []) : applyUpdates t req b = t := by
  cases b with
  | false =>
    have h2 : changeTitle req.title t ++ changeDescription req.description t = [] := h
    rw [List.append_eq_nil] at h2
    show applyDescription req.description (applyTitle req.title t) = t
    rw [changeTitle_nil _ _ h2.1, changeDescription_nil _ _ h2.2]
  | true =>
    have h2 : (((((changeTitle req.title t ++ changeDescription req.description t) ++
        changeStatus req.status t) ++ changePriority req.priority t) ++
          changeAssignedTo req.assignedTo) ++ changeCategory req.category t) ++
            changeTags req.tags = [] := h
    simp only [List.append_eq_nil] at h2
    obtain ⟨⟨⟨⟨⟨⟨h1, hd⟩, hs⟩, hp⟩, ha⟩, hc⟩, htg⟩ := h2
    show applyTags req.tags (applyCategory req.category (applyAssignedTo req.assignedTo
      (applyPriority req.priority (applyStatus req.status
        (applyDescription req.description (applyTitle req.title t)))))) = t
    rw [changeTitle_nil _ _ h1, changeDescription_nil _ _ hd, changeStatus_nil _ _ hs,
      changePriority_nil _ _ hp, changeAssignedTo_nil _ ha]
    show applyTags req.tags (applyCategory req.category t) = t
    rw [changeCategory_nil _ _ hc, changeTags_nil _ htg]
    rfl

/-- Closed form of checkSLABreaches: each flag becomes the disjunction of its
previous value with the freshly evaluated breach condition (the method never
clears a flag). -/
theorem checkSLABreaches_eq (t : Ticket) (now : Nat) :
    checkSLABreaches t now = { t with sla := { t.sla with
      isResponseBreached := t.sla.isResponseBreached ||
        (t.firstResponseAt.isNone && decide (t.sla.responseDeadline < now)),
      isResolutionBreached := t.sla.isResolutionBreached ||
        (t.resolvedAt.isNone && decide (t.sla.resolutionDeadline < now)) } } := by
  unfold checkSLABreaches
  cases h1 : (t.firstResponseAt.isNone && decide (t.sla.responseDeadline < now)) <;>
    cases h2 : (t.resolvedAt.isNone && decide (t.sla.resolutionDeadline < now)) <;>
      simp [h1, h2]

/-- Admin fixture used by the concrete witnesses. -/
def wAdmin : User := { id := 1, name := "Admin", role := Role.admin }

/-- Agent fixture. -/
def wAgent : User := { id := 2, name := "Agent", role := Role.agent }

/-- End-user fixture. -/
def wUser : User := { id := 3, name := "John", role := Role.user }

/-- A ticket as produced by the create route for wUser at time 0 with urgent
priority (deadlines 2h and 8h in milliseconds). -/
def wTicket : Ticket := {
  id := 10, title := "Login", description := "Cannot login",
  status := Status.open_, priority := Priority.urgent, category := Category.technical,
  createdBy := 3, assignedTo := none,
  sla := { responseTime := 2, resolutionTime := 8,
           responseDeadline := 7200000, resolutionDeadline := 28800000,
           isResponseBreached := false, isResolutionBreached := false },
  tags := [], version := 0, createdAt := 0, updatedAt := 0,
  firstResponseAt := none, resolvedAt := none, closedAt := none }

/-- Store fixture holding the three users, the ticket and its created event. -/
def wDB : DB := {
  users := [wAdmin, wAgent, wUser],
  tickets := [wTicket],
  comments := [],
  timeline := [{ ticket := 10, user := 3, action := "created", field := none }] }

/-- An UpdateReq with no fields present, used as a base for request literals. -/
def emptyReq : UpdateReq := {
  version := none, title := none, description := none, status := none,
  priority := none, assignedTo := none, category := none, tags := none }

/-- C2: a PATCH that supplies an expectedVersion differing from the stored
version returns STALE_UPDATE with status 409 and leaves the store — ticket,
comments and timeline alike — exactly as it was. -/
theorem c2_stale_update_no_write (db : DB) (actor : User) (tid : Nat)
    (req : UpdateReq) (now : Nat) (t : Ticket) (v : Nat)
    (hfind : db.findTicket tid = some t)
    (hv : req.version = some v) (hne : v ≠ t.version) :
    patchTicket db actor tid req now = (Resp.err 409 "STALE_UPDATE", db) := by
  have hs : staleCheck t.version req.version = true := by
    rw [hv]
    unfold staleCheck
    exact bne_iff_ne.mpr (Ne.symm hne)
  simp only [patchTicket, hfind, hs]
  rfl

/-- Witness for C2: a concrete stale PATCH (stored version 0, supplied 5)
is rejected with 409 STALE_UPDATE and no write. -/
theorem c2_witness :
    patchTicket wDB wAdmin 10 { emptyReq with version := some 5, title := some "X" } 99
      = (Resp.err 409 "STALE_UPDATE", wDB) :=
  c2_stale_update_no_write wDB wAdmin 10 _ 99 wTicket 5 (by decide) rfl (by decide)

/-- The creation scenario for C3: ticket 10 filed by wUser at time 0 with
urgent priority. -/
def c3create : Resp × DB :=
  createTicket { users := [wAdmin, wUser], tickets := [], comments := [], timeline := [] }
    wUser 10 "Login" "Cannot login" (some Priority.urgent) none 0

/-- The repriority at four hours (14400000 ms) via the priority endpoint. -/
def c3viaRoute : Resp × DB := setPriorityRoute c3create.2 wAdmin 10 "low" 14400000

/-- The same repriority done through PATCH with a matching version token. -/
def c3viaPatch : Resp × DB :=
  patchTicket c3create.2 wAdmin 10
    { emptyReq with version := some 0, priority := some Priority.low } 14400000

/-- C3 is a code bug: changing the priority of an existing ticket does not
recompute the SLA deadlines (nor the stored hour figures).  The pre-save hook
computes deadlines only for new documents, so after repriorizing the urgent
ticket to low at T0+4h — by either endpoint — the stored deadlines are still
T0+2h and T0+8h, not (T0+4h)+48h and (T0+4h)+168h as the route's own comment
("SLA will be recomputed automatically by the pre-save hook") and timeline
message ("SLA deadlines recomputed") promise. -/
theorem c3_priority_change_keeps_old_deadlines :
    ((c3viaRoute.2.findTicket 10).map fun t =>
        (t.priority, t.sla.responseDeadline, t.sla.resolutionDeadline, t.sla.responseTime))
      = some (Priority.low, 7200000, 28800000, 2) ∧
    ((c3viaPatch.2.findTicket 10).map fun t =>
        (t.priority, t.sla.responseDeadline, t.sla.resolutionDeadline))
      = some (Priority.low, 7200000, 28800000) ∧
    (7200000 ≠ 14400000 + 48 * 60 * 60 * 1000 ∧
     28800000 ≠ 14400000 + 168 * 60 * 60 * 1000) := by
  refine ⟨by decide, by decide, by decide, by decide⟩

/-- The idempotency scenario for C4: an empty cache over the fixture store. -/
def c4sys : Sys := { idem := [], db := wDB }

/-- First POST: the agent resolves ticket 10 under Idempotency-Key retry-1. -/
def c4first : Resp × Sys :=
  postWithIdempotency c4sys (some "retry-1")
    (fun db => setStatusRoute db wAgent 10 "resolved" 5)

/-- Second POST: a different actor (the admin) tries to close ticket 10 under
the same literal key. -/
def c4second : Resp × Sys :=
  postWithIdempotency c4first.2 (some "retry-1")
    (fun db => setStatusRoute db wAdmin 10 "closed" 6)

/-- C4 is a code bug: the idempotency middleware is mounted before the
router-level authenticate, so req.user is always undefined when the store key
is computed and every entry lands under the literal userKey 'anonymous'.  Two
distinct actors reusing the same token therefore collide: the admin's close
request is answered with the agent's cached resolve response, the admin's own
mutation never runs (the system state is untouched and the ticket stays
resolved), contradicting the middleware's stated (actor, key) key space. -/
theorem c4_idempotency_actor_collision :
    wAgent.id ≠ wAdmin.id ∧
    storeKeyFor none "retry-1" = "anonymous:retry-1" ∧
    c4second.1 = c4first.1 ∧
    c4second.2 = c4first.2 ∧
    (c4second.2.db.findTicket 10).map Ticket.status = some Status.resolved := by
  refine ⟨by decide, by decide, by decide, by decide, by decide⟩

/-- C6: for a ticket whose stored breach flags are clear (which holds for
every ticket the routes ever load, since no code path persists a set flag),
checkSLABreaches reports a response breach exactly when firstResponseAt is
unset and now exceeds the response deadline, reports a resolution breach
exactly when resolvedAt is unset and now exceeds the resolution deadline —
so once firstResponseAt is set the next read reports false — and running the
check twice with the same clock value changes nothing further. -/
theorem c6_breach_check (t : Ticket) (now : Nat)
    (hr : t.sla.isResponseBreached = false)
    (hs : t.sla.isResolutionBreached = false) :
    ((checkSLABreaches t now).sla.isResponseBreached = true ↔
        (t.firstResponseAt = none ∧ t.sla.responseDeadline < now)) ∧
    ((checkSLABreaches t now).sla.isResolutionBreached = true ↔
        (t.resolvedAt = none ∧ t.sla.resolutionDeadline < now)) ∧
    checkSLABreaches (checkSLABreaches t now) now = checkSLABreaches t now := by
  refine ⟨?_, ?_, ?_⟩
  · rw [checkSLABreaches_eq]
    simp [hr, Option.isNone_iff_eq_none]
  · rw [checkSLABreaches_eq]
    simp [hs, Option.isNone_iff_eq_none]
  · rw [checkSLABreaches_eq, checkSLABreaches_eq]
    simp [Bool.or_assoc, Bool.or_self]

/-- Witness for C6: the urgent fixture ticket read at T0+3h (10800000 ms) with
clear stored flags — the response deadline (2h) is breached, the resolution
deadline (8h) is not. -/
theorem c6_witness :
    ((checkSLABreaches wTicket 10800000).sla.isResponseBreached = true ↔
        (wTicket.firstResponseAt = none ∧ wTicket.sla.responseDeadline < 10800000)) ∧
    ((checkSLABreaches wTicket 10800000).sla.isResolutionBreached = true ↔
        (wTicket.resolvedAt = none ∧ wTicket.sla.resolutionDeadline < 10800000)) ∧
    checkSLABreaches (checkSLABreaches wTicket 10800000) 10800000
      = checkSLABreaches wTicket 10800000 :=
  c6_breach_check wTicket 10800000 rfl rfl

/-- If a ticket is found in a store, it is found in any store with the same
tickets collection. -/
theorem replaceTicket_id (saved u : Ticket) :
    ((if u.id == saved.id then saved else u) : Ticket).id = u.id := by
  by_cases hq : (u.id == saved.id) = true
  · simp only [hq, if_true]
    exact (beq_iff_eq.mp hq).symm
  · simp only [hq]
    simp

/-- List-level form of the write-back lookup: replacing by the saved id in a
list where the lookup found t yields the saved document. -/
theorem find?_save (l : List Ticket) (tid : Nat) (t saved : Ticket)
    (h : l.find? (fun u => u.id == tid) = some t) (hid : saved.id = t.id) :
    (l.map (fun u => if u.id == saved.id then saved else u)).find?
      (fun u => u.id == tid) = some saved := by
  have hf : ∀ u : Ticket, ((if u.id == saved.id then saved else u) : Ticket).id = u.id :=
    replaceTicket_id saved
  have := find?_map_of_found l tid t _ hf h
  rw [this]
  have hq : (t.id == saved.id) = true := beq_iff_eq.mpr hid.symm
  rw [hq]
  rfl

/-- C7: on a successful comment creation, (a) when no comment-type entry yet
exists for the ticket and the new entry is of type comment, it is flagged
isFirstResponse and the stored ticket's firstResponseAt is set to now; (b) when
a comment-type entry already exists, the new entry is not flagged and the
tickets collection — so in particular firstResponseAt — is untouched; (c) an
internal_note is never flagged and never touches the tickets collection; (d) a
comment-type entry raises the stored comment-type count by one, so after the
first comment every later comment falls under case (b). -/
theorem c7_first_response (db : DB) (actor : User) (tid : Nat) (content : String)
    (ctype : CommentType) (now : Nat) (t : Ticket) (c : CommentDoc) (db2 : DB)
    (hfind : db.findTicket tid = some t)
    (hrun : addComment db actor tid content ctype now = (Resp.createdComment c, db2)) :
    (db.commentCount t.id = 0 → ctype = CommentType.comment →
        c.isFirstResponse = true ∧
        (db2.findTicket tid).map Ticket.firstResponseAt = some (some now)) ∧
    (db.commentCount t.id ≠ 0 →
        c.isFirstResponse = false ∧ db2.tickets = db.tickets) ∧
    (ctype = CommentType.internal_note →
        c.isFirstResponse = false ∧ db2.tickets = db.tickets) ∧
    (ctype = CommentType.comment →
        db2.commentCount t.id = db.commentCount t.id + 1) := by
  unfold addComment at hrun
  split at hrun
  · exact absurd hrun (by simp)
  · simp only [hfind] at hrun
    split at hrun
    · exact absurd hrun (by simp)
    · split at hrun
      · exact absurd hrun (by simp)
      · simp only [Prod.mk.injEq, Resp.createdComment.injEq] at hrun
        obtain ⟨hc, hdb⟩ := hrun
        subst hc
        subst hdb
        cases hisf : (db.commentCount t.id == 0 && (ctype == CommentType.comment)) with
        | false =>
          simp only [hisf]
          refine ⟨?_, ?_, ?_, ?_⟩
          · intro h0 hct
            rw [h0, hct] at hisf
            simp at hisf
          · intro _
            exact ⟨by trivial, by trivial⟩
          · intro _
            exact ⟨by trivial, by trivial⟩
          · intro hct
            subst hct
            unfold DB.commentCount
            simp [List.filter_append]
        | true =>
          simp only [hisf]
          refine ⟨?_, ?_, ?_, ?_⟩
          · intro h0 hct
            subst hct
            refine ⟨by trivial, ?_⟩
            have hid : (hookedSave t { t with firstResponseAt := some now } false now).id
                = t.id := hookedSave_id _ _ _ _
            have hfind2 : db.tickets.find? (fun u => u.id == tid) = some t := hfind
            have hfs := find?_save db.tickets tid t
              (hookedSave t { t with firstResponseAt := some now } false now) hfind2 hid
            show ((db.tickets.map (fun u =>
                if u.id == (hookedSave t { t with firstResponseAt := some now } false now).id
                then hookedSave t { t with firstResponseAt := some now } false now
                else u)).find? (fun u => u.id == tid)).map Ticket.firstResponseAt
              = some (some now)
            rw [hfs]
            simp [hookedSave_firstResponseAt]
          · intro h0
            have hzero : (db.commentCount t.id == 0) = false := by
              rw [beq_eq_false_iff_ne]
              exact h0
            rw [hzero] at hisf
            simp at hisf
          · intro hct
            subst hct
            simp at hisf
          · intro hct
            subst hct
            unfold DB.commentCount
            simp [DB.saveTicket, List.filter_append]

/-- The comment produced by the first comment-type entry on the fixture
ticket. -/
def c7c : CommentDoc := {
  ticket := 10, author := 2, content := "hi",
  type := CommentType.comment, isFirstResponse := true, createdAt := 111 }

/-- The store after the agent's first comment on the fixture ticket. -/
def c7run : Resp × DB := addComment wDB wAgent 10 "hi" CommentType.comment 111

/-- Witness for C7: the agent's first comment on the fixture ticket is flagged
and stamps firstResponseAt with the comment time. -/
theorem c7_witness :
    c7c.isFirstResponse = true ∧
    ((c7run.2).findTicket 10).map Ticket.firstResponseAt = some (some 111) :=
  (c7_first_response wDB wAgent 10 "hi" CommentType.comment 111 wTicket c7c c7run.2
    (by decide) (by decide)).1 (by decide) rfl

/-- The PATCH body of a user-role owner trying to set only the status. -/
def c8req : UpdateReq := { emptyReq with status := some Status.resolved }

/-- Counterexample for C8: the user-role creator PATCHes their ticket with only
the status field; the claim expects FORBIDDEN, but the call succeeds (200 with
the unchanged ticket), writes nothing and emits no timeline event. -/
theorem c8_counterexample :
    wUser.role = Role.user ∧ wTicket.createdBy = wUser.id ∧
    (patchTicket wDB wUser 10 c8req 99).1 = Resp.ok wTicket ∧
    (patchTicket wDB wUser 10 c8req 99).2.findTicket 10 = some wTicket ∧
    (patchTicket wDB wUser 10 c8req 99).2.timeline = wDB.timeline := by
  refine ⟨by decide, by decide, by decide, by decide, by decide⟩

/-- C8 (amended): when a user-role creator PATCHes their own ticket, the
status field (like every non-owner field) is silently dropped — any success
response carries the stored status unchanged — and a request containing no
allowed field at all still returns success with the ticket written back
unchanged and no timeline event, rather than FORBIDDEN; FORBIDDEN is reserved
for actors who are neither the creator nor agent/admin. -/
theorem c8_amended_status_dropped (db : DB) (actor : User) (tid : Nat)
    (req : UpdateReq) (now : Nat) (t : Ticket)
    (hfind : db.findTicket tid = some t)
    (hrole : actor.role = Role.user)
    (howner : t.createdBy = actor.id)
    (hstale : staleCheck t.version req.version = false) :
    (∀ saved db2, patchTicket db actor tid req now = (Resp.ok saved, db2) →
        saved.status = t.status) ∧
    (req.title = none → req.description = none →
        patchTicket db actor tid req now = (Resp.ok t, db.saveTicket t)) := by
  have hbo : (t.createdBy == actor.id) = true := beq_iff_eq.mpr howner
  have hba : (actor.role == Role.agent || actor.role == Role.admin) = false := by
    rw [hrole]
    rfl
  constructor
  · intro saved db2 h
    simp only [patchTicket, hfind, hstale, hbo, hba, Bool.not_true, Bool.not_false,
      Bool.false_and, Bool.false_eq_true, if_false, Prod.mk.injEq, Resp.ok.injEq] at h
    rw [← h.1, hookedSave_status]
    exact (applyUpdates_user t req).1
  · intro ht hd
    have happly : applyUpdates t req false = t := by
      show applyDescription req.description (applyTitle req.title t) = t
      rw [ht, hd]
      rfl
    have hchanges : patchChanges t req false = [] := by
      show changeTitle req.title t ++ changeDescription req.description t = []
      rw [ht, hd]
      rfl
    simp only [patchTicket, hfind, hstale, hbo, hba, Bool.not_true, Bool.not_false,
      Bool.false_and, Bool.false_eq_true, if_false, happly, hchanges, hookedSave_self,
      List.map_nil, List.append_nil]

/-- Witness for C8: a status-only PATCH by the user-role creator of the
fixture ticket succeeds with the ticket unchanged. -/
theorem c8_witness :
    patchTicket wDB wUser 10 c8req 99 = (Resp.ok wTicket, wDB.saveTicket wTicket) :=
  (c8_amended_status_dropped wDB wUser 10 c8req 99 wTicket (by decide) rfl (by decide)
    rfl).2 rfl rfl

/-- A PATCH body assigning the ticket to the user-role account. -/
def c9req : UpdateReq := { emptyReq with assignedTo := some (some 3) }

/-- The fixture ticket after the unvalidated assignment to the user-role
account went through. -/
def c9saved : Ticket := { wTicket with assignedTo := some 3, version := 1, updatedAt := 99 }

/-- Counterexample for C9: a PATCH carrying assignedTo = the user-role account
succeeds and stores that assignee — the claim expects an invalid-assignee
rejection for every mutation that sets assignedTo, but the PATCH route never
validates the assignee's role. -/
theorem c9_counterexample :
    wDB.findUser 3 = some wUser ∧ wUser.role = Role.user ∧
    (patchTicket wDB wAdmin 10 c9req 99).1 = Resp.ok c9saved ∧
    (patchTicket wDB wAdmin 10 c9req 99).2.findTicket 10 = some c9saved := by
  refine ⟨by decide, by decide, by decide, by decide⟩

/-- C9 (amended): the assign endpoint and the bulk-assign endpoint reject an
assignee that resolves to a non-agent/admin user with 400 INVALID_ASSIGNEE and
leave the store untouched; applyUpdate (PATCH), however, applies a present
assignedTo verbatim with no role validation, so an agent/admin can store a
user-role assignee through it. -/
theorem c9_amended_assignee_validation :
    (∀ (db : DB) (actor : User) (tid a : Nat) (u : User) (t : Ticket) (now : Nat),
        actor.role = Role.admin → db.findTicket tid = some t →
        db.findUser a = some u → u.role = Role.user →
        assignTicket db actor tid (some a) now = (Resp.err 400 "INVALID_ASSIGNEE", db)) ∧
    (∀ (db : DB) (actor : User) (ids : List Nat) (a : Nat) (u : User),
        actor.role = Role.admin → ids ≠ [] →
        db.findUser a = some u → u.role = Role.user →
        bulkAssign db actor ids (some a) = (Resp.err 400 "INVALID_ASSIGNEE", db)) ∧
    (∀ (db : DB) (actor : User) (tid a : Nat) (u : User) (t : Ticket)
        (req : UpdateReq) (now : Nat),
        actor.role = Role.admin → db.findTicket tid = some t →
        staleCheck t.version req.version = false →
        req.assignedTo = some (some a) →
        db.findUser a = some u → u.role = Role.user →
        ∃ saved db2, patchTicket db actor tid req now = (Resp.ok saved, db2) ∧
          saved.assignedTo = some a) := by
  refine ⟨?_, ?_, ?_⟩
  · intro db actor tid a u t now hrole hfind hfu hur
    have hra : (actor.role == Role.agent || actor.role == Role.admin) = true := by
      rw [hrole]
      rfl
    have hrag : (actor.role == Role.agent) = false := by
      rw [hrole]
      rfl
    have hinv : invalidAssignee db (some a) = true := by
      unfold invalidAssignee
      simp only [hfu]
      rw [hur]
      rfl
    simp [assignTicket, hrole, hfind, hinv]
  · intro db actor ids a u hrole hne hfu hur
    have hradm : (actor.role == Role.admin) = true := by
      rw [hrole]
      rfl
    have hinv : invalidAssignee db (some a) = true := by
      unfold invalidAssignee
      simp only [hfu]
      rw [hur]
      rfl
    have hemp : ids.isEmpty = false := by
      cases ids with
      | nil => exact absurd rfl hne
      | cons x xs => rfl
    simp [bulkAssign, hrole, hemp, hinv]
  · intro db actor tid a u t req now hrole hfind hstale hassign hfu hur
    have hra : (actor.role == Role.agent || actor.role == Role.admin) = true := by
      rw [hrole]
      rfl
    refine ⟨hookedSave t (applyUpdates t req true) false now,
      (patchTicket db actor tid req now).2, ?_, ?_⟩
    · have h1 : (patchTicket db actor tid req now).1
          = Resp.ok (hookedSave t (applyUpdates t req true) false now) := by
        simp only [patchTicket, hfind, hstale, Bool.false_eq_true, if_false, hra,
          Bool.not_true, Bool.and_false]
      calc patchTicket db actor tid req now
          = ((patchTicket db actor tid req now).1, (patchTicket db actor tid req now).2) := rfl
        _ = (Resp.ok (hookedSave t (applyUpdates t req true) false now),
            (patchTicket db actor tid req now).2) := by rw [h1]
    · rw [hookedSave_assignedTo]
      exact applyUpdates_assignedTo t req (some a) hassign

/-- Witness for C9: assigning the fixture ticket to the user-role account via
the assign endpoint is rejected with INVALID_ASSIGNEE. -/
theorem c9_witness :
    assignTicket wDB wAdmin 10 (some 3) 99 = (Resp.err 400 "INVALID_ASSIGNEE", wDB) :=
  c9_amended_assignee_validation.1 wDB wAdmin 10 3 wUser wTicket 99 rfl (by decide)
    (by decide) rfl

/-- The fixture store after the admin assigned ticket 10 to the agent at
time 50 (version bumped to 1). -/
def c10db : DB := (assignTicket wDB wAdmin 10 (some 2) 50).2

/-- The stored fixture ticket inside c10db. -/
def c10ticket : Ticket := { wTicket with assignedTo := some 2, version := 1, updatedAt := 50 }

/-- A PATCH body restating the assignee the ticket already has. -/
def c10req : UpdateReq := { emptyReq with assignedTo := some (some 2) }

/-- Counterexample for C10: a PATCH whose only field restates the current
assignee succeeds and leaves the stored ticket byte-identical (version and
updatedAt included), yet one `updated` TimelineEvent is still written, because
the diff compares a stored ObjectId against a request string with JS strict
inequality, which never judges them equal. -/
theorem c10_counterexample :
    c10db.findTicket 10 = some c10ticket ∧
    (patchTicket c10db wAdmin 10 c10req 99).1 = Resp.ok c10ticket ∧
    (patchTicket c10db wAdmin 10 c10req 99).2.findTicket 10 = some c10ticket ∧
    (patchTicket c10db wAdmin 10 c10req 99).2.eventCount 10 = c10db.eventCount 10 + 1 := by
  refine ⟨by decide, by decide, by decide, by decide⟩

/-- C10 (amended): an authorized no-op applyUpdate — every requested field
equal to the stored value — returns success and writes the ticket back
unchanged (version and updatedAt keep their prior values), and emits no
TimelineEvent provided the request only restates the primitively compared
fields (title, description, status, priority, category); restating assignedTo
or tags, which are object-typed in JS, still emits a spurious event even
though the stored ticket is unchanged. -/
theorem c10_amended_noop_update (db : DB) (actor : User) (tid : Nat)
    (req : UpdateReq) (now : Nat) (t : Ticket)
    (hfind : db.findTicket tid = some t)
    (hAA : (actor.role == Role.agent || actor.role == Role.admin) = true)
    (hstale : staleCheck t.version req.version = false)
    (ht : req.title = none ∨ req.title = some t.title)
    (hd : req.description = none ∨ req.description = some t.description)
    (hs : req.status = none ∨ req.status = some t.status)
    (hp : req.priority = none ∨ req.priority = some t.priority)
    (hc : req.category = none ∨ req.category = some t.category)
    (ha : req.assignedTo = none) (htg : req.tags = none) :
    patchTicket db actor tid req now = (Resp.ok t, db.saveTicket t) := by
  have hchanges : patchChanges t req true = [] := by
    show (((((changeTitle req.title t ++ changeDescription req.description t) ++
      changeStatus req.status t) ++ changePriority req.priority t) ++
        changeAssignedTo req.assignedTo) ++ changeCategory req.category t) ++
          changeTags req.tags = []
    rcases ht with h1 | h1 <;> rcases hd with h2 | h2 <;> rcases hs with h3 | h3 <;>
      rcases hp with h4 | h4 <;> rcases hc with h5 | h5 <;>
        simp [h1, h2, h3, h4, h5, ha, htg, changeTitle, changeDescription, changeStatus,
          changePriority, changeAssignedTo, changeCategory, changeTags]
  have happly := patchChanges_nil t req true hchanges
  simp only [patchTicket, hfind, hstale, Bool.false_eq_true, if_false, hAA,
    Bool.not_true, Bool.and_false, happly, hchanges, hookedSave_self, List.map_nil,
    List.append_nil]

/-- Witness for C10: an empty PATCH body by the agent on the fixture ticket
succeeds and writes the unchanged ticket back with no event. -/
theorem c10_witness :
    patchTicket wDB wAgent 10 emptyReq 99 = (Resp.ok wTicket, wDB.saveTicket wTicket) :=
  c10_amended_noop_update wDB wAgent 10 emptyReq 99 wTicket (by decide) rfl rfl
    (Or.inl rfl) (Or.inl rfl) (Or.inl rfl) (Or.inl rfl) (Or.inl rfl) rfl rfl

/-- A PATCH body changing the title and presenting no version token. -/
def c5req : UpdateReq := { emptyReq with title := some "New" }

/-- The fixture ticket after the version-less title PATCH went through. -/
def c5saved : Ticket := { wTicket with title := "New", version := 1, updatedAt := 99 }

/-- Counterexample for C5: a mutation request that omits the version field
entirely is not rejected — it bypasses the optimistic-locking check, succeeds
and writes the ticket (version bumped from 0 to 1). -/
theorem c5_counterexample :
    c5req.version = none ∧
    (patchTicket wDB wAdmin 10 c5req 99).1 = Resp.ok c5saved ∧
    (patchTicket wDB wAdmin 10 c5req 99).2.findTicket 10 = some c5saved ∧
    c5saved.version = wTicket.version + 1 := by
  refine ⟨rfl, by decide, by decide, by decide⟩

/-- C5 (amended): a PATCH that does present a version differing from the
stored one is rejected with 409 STALE_UPDATE and performs no write, but a
PATCH that omits the version field bypasses the check entirely: its outcome is
never STALE_UPDATE, and the mutation proceeds to the permission stage. -/
theorem c5_amended_version_check (db : DB) (actor : User) (tid : Nat)
    (req : UpdateReq) (now : Nat) (t : Ticket)
    (hfind : db.findTicket tid = some t) :
    (∀ v, req.version = some v → v ≠ t.version →
        patchTicket db actor tid req now = (Resp.err 409 "STALE_UPDATE", db)) ∧
    (req.version = none →
        (patchTicket db actor tid req now).1 ≠ Resp.err 409 "STALE_UPDATE") := by
  constructor
  · intro v hv hne
    have hs : staleCheck t.version req.version = true := by
      rw [hv]
      unfold staleCheck
      exact bne_iff_ne.mpr (Ne.symm hne)
    simp only [patchTicket, hfind, hs]
    rfl
  · intro hv
    have hs : staleCheck t.version req.version = false := by
      rw [hv]
      rfl
    simp only [patchTicket, hfind, hs, Bool.false_eq_true, if_false]
    split
    · simp
    · simp

/-- Witness for C5: a stale PATCH (stored version 0, supplied 7) against the
fixture ticket is rejected; and the version-less PATCH of the counterexample
request does not produce STALE_UPDATE. -/
theorem c5_witness :
    patchTicket wDB wAdmin 10 { emptyReq with version := some 7 } 99
        = (Resp.err 409 "STALE_UPDATE", wDB) ∧
    (patchTicket wDB wAdmin 10 c5req 99).1 ≠ Resp.err 409 "STALE_UPDATE" :=
  ⟨(c5_amended_version_check wDB wAdmin 10 { emptyReq with version := some 7 } 99 wTicket
      (by decide)).1 7 rfl (by decide),
   (c5_amended_version_check wDB wAdmin 10 c5req 99 wTicket (by decide)).2 rfl⟩

/-- Mapping then filtering with a predicate every image satisfies keeps the
whole list. -/
theorem length_filter_map_of_all {α β : Type} (l : List α) (g : α → β) (p : β → Bool)
    (h : ∀ x, p (g x) = true) : ((l.map g).filter p).length = l.length := by
  rw [List.filter_eq_self.mpr, List.length_map]
  intro e he
  obtain ⟨x, _, rfl⟩ := List.mem_map.mp he
  exact h x

/-- A successful PATCH that actually changed the stored ticket incremented its
version by exactly one, wrote the new document back, and appended at least one
timeline event referencing the ticket. -/
theorem patchWriteFacts (db : DB) (actor : User) (tid : Nat) (req : UpdateReq)
    (now : Nat) (t saved : Ticket) (db2 : DB)
    (hfind : db.findTicket tid = some t)
    (hrun : patchTicket db actor tid req now = (Resp.ok saved, db2))
    (hne : saved ≠ t) :
    saved.version = t.version + 1 ∧ db2.findTicket tid = some saved ∧
    db.eventCount tid + 1 ≤ db2.eventCount tid := by
  unfold patchTicket at hrun
  simp only [hfind] at hrun
  split at hrun
  · exact absurd hrun (by simp)
  · split at hrun
    · exact absurd hrun (by simp)
    · simp only [Prod.mk.injEq, Resp.ok.injEq] at hrun
      obtain ⟨hsv, hdb⟩ := hrun
      subst hsv
      subst hdb
      have happne : applyUpdates t req (actor.role == Role.agent || actor.role == Role.admin) ≠ t := by
        intro h
        apply hne
        rw [h, hookedSave_self]
      refine ⟨?_, ?_, ?_⟩
      · rw [hookedSave_version t _ now happne, (applyUpdates_frame t req _).2]
      · have hid : (hookedSave t (applyUpdates t req
            (actor.role == Role.agent || actor.role == Role.admin)) false now).id = t.id := by
          rw [hookedSave_id, (applyUpdates_frame t req _).1]
        have hfind2 : db.tickets.find? (fun u => u.id == tid) = some t := hfind
        exact find?_save db.tickets tid t _ hfind2 hid
      · have hid0 : t.id = tid := findTicket_id db tid t hfind
        have hchne : patchChanges t req (actor.role == Role.agent || actor.role == Role.admin) ≠ [] :=
          fun hnil => happne (patchChanges_nil t req _ hnil)
        unfold DB.eventCount
        simp only [DB.saveTicket, List.filter_append, List.length_append]
        rw [length_filter_map_of_all (patchChanges t req (actor.role == Role.agent || actor.role == Role.admin)) (fun f => ({ ticket := t.id, user := actor.id, action := "updated", field := some f } : TimelineEvent)) (fun e => e.ticket == tid) (fun f => beq_iff_eq.mpr hid0)]
        have : 0 < (patchChanges t req (actor.role == Role.agent || actor.role == Role.admin)).length :=
          List.length_pos.mpr hchne
        omega

/-- A successful assign wrote the reassigned document back (version bumped by
one exactly when the assignee actually changed) and appended exactly one
timeline event for the ticket. -/
theorem assignWriteFacts (db : DB) (actor : User) (tid : Nat) (a : Option Nat)
    (now : Nat) (t saved : Ticket) (db2 : DB)
    (hfind : db.findTicket tid = some t)
    (hrun : assignTicket db actor tid a now = (Resp.ok saved, db2)) :
    (saved ≠ t → saved.version = t.version + 1) ∧
    db2.findTicket tid = some saved ∧
    db2.eventCount tid = db.eventCount tid + 1 := by
  unfold assignTicket at hrun
  split at hrun
  · exact absurd hrun (by simp)
  · simp only [hfind] at hrun
    split at hrun
    · exact absurd hrun (by simp)
    · split at hrun
      · exact absurd hrun (by simp)
      · simp only [Prod.mk.injEq, Resp.ok.injEq] at hrun
        obtain ⟨hsv, hdb⟩ := hrun
        subst hsv
        subst hdb
        refine ⟨?_, ?_, ?_⟩
        · intro hne
          have hdne : ({ t with assignedTo := a } : Ticket) ≠ t := by
            intro h
            apply hne
            rw [h, hookedSave_self]
          rw [hookedSave_version t _ now hdne]
        · have hid : (hookedSave t { t with assignedTo := a } false now).id = t.id :=
            hookedSave_id _ _ _ _
          have hfind2 : db.tickets.find? (fun u => u.id == tid) = some t := hfind
          exact find?_save db.tickets tid t _ hfind2 hid
        · have hid0 : t.id = tid := findTicket_id db tid t hfind
          unfold DB.eventCount
          simp [DB.saveTicket, List.filter_append, hid0]

/-- A successful status change wrote the document back (version bumped by one
exactly when the stored ticket changed) and appended exactly one timeline
event for the ticket. -/
theorem statusWriteFacts (db : DB) (actor : User) (tid : Nat) (status : String)
    (now : Nat) (t saved : Ticket) (db2 : DB)
    (hfind : db.findTicket tid = some t)
    (hrun : setStatusRoute db actor tid status now = (Resp.ok saved, db2)) :
    (saved ≠ t → saved.version = t.version + 1) ∧
    db2.findTicket tid = some saved ∧
    db2.eventCount tid = db.eventCount tid + 1 := by
  unfold setStatusRoute at hrun
  split at hrun
  · exact absurd hrun (by simp)
  · split at hrun
    · exact absurd hrun (by simp)
    · rename_i s _
      simp only [hfind] at hrun
      simp only [Prod.mk.injEq, Resp.ok.injEq] at hrun
      obtain ⟨hsv, hdb⟩ := hrun
      subst hsv
      subst hdb
      refine ⟨?_, ?_, ?_⟩
      · intro hne
        have hdne : ({ t with status := s } : Ticket) ≠ t := by
          intro h
          apply hne
          rw [h, hookedSave_self]
        rw [hookedSave_version t _ now hdne]
      · have hid : (hookedSave t { t with status := s } false now).id = t.id :=
          hookedSave_id _ _ _ _
        have hfind2 : db.tickets.find? (fun u => u.id == tid) = some t := hfind
        exact find?_save db.tickets tid t _ hfind2 hid
      · have hid0 : t.id = tid := findTicket_id db tid t hfind
        unfold DB.eventCount
        simp [DB.saveTicket, List.filter_append, hid0]

/-- A successful priority change wrote the document back (version bumped by
one exactly when the stored ticket changed) and appended exactly one timeline
event for the ticket. -/
theorem priorityWriteFacts (db : DB) (actor : User) (tid : Nat) (priority : String)
    (now : Nat) (t saved : Ticket) (db2 : DB)
    (hfind : db.findTicket tid = some t)
    (hrun : setPriorityRoute db actor tid priority now = (Resp.ok saved, db2)) :
    (saved ≠ t → saved.version = t.version + 1) ∧
    db2.findTicket tid = some saved ∧
    db2.eventCount tid = db.eventCount tid + 1 := by
  unfold setPriorityRoute at hrun
  split at hrun
  · exact absurd hrun (by simp)
  · split at hrun
    · exact absurd hrun (by simp)
    · rename_i p _
      simp only [hfind] at hrun
      simp only [Prod.mk.injEq, Resp.ok.injEq] at hrun
      obtain ⟨hsv, hdb⟩ := hrun
      subst hsv
      subst hdb
      refine ⟨?_, ?_, ?_⟩
      · intro hne
        have hdne : ({ t with priority := p } : Ticket) ≠ t := by
          intro h
          apply hne
          rw [h, hookedSave_self]
        rw [hookedSave_version t _ now hdne]
      · have hid : (hookedSave t { t with priority := p } false now).id = t.id :=
          hookedSave_id _ _ _ _
        have hfind2 : db.tickets.find? (fun u => u.id == tid) = some t := hfind
        exact find?_save db.tickets tid t _ hfind2 hid
      · have hid0 : t.id = tid := findTicket_id db tid t hfind
        unfold DB.eventCount
        simp [DB.saveTicket, List.filter_append, hid0]

/-- On a new document the save hook leaves version untouched (only the
isNew deadline computation runs). -/
theorem hookedSave_version_new (orig data : Ticket) (now : Nat) :
    (hookedSave orig data true now).version = data.version := by
  unfold hookedSave
  rw [(hookClosedAt_frame _ _ _).2.1, (hookResolvedAt_frame _ _ _).2.1]
  show (hookVersionBump false now (hookNewDeadlines true now data)).version = data.version
  unfold hookVersionBump hookNewDeadlines
  rfl

/-- A successful create stored the new ticket at version 0 and appended one
created event referencing it. -/
theorem createWriteFacts (db : DB) (actor : User) (newId : Nat) (title descr : String)
    (pr : Option Priority) (cat : Option Category) (now : Nat) (saved : Ticket) (db2 : DB)
    (hrun : createTicket db actor newId title descr pr cat now
      = (Resp.createdTicket saved, db2)) :
    saved.version = 0 ∧ db2.eventCount newId = db.eventCount newId + 1 := by
  unfold createTicket at hrun
  split at hrun
  · exact absurd hrun (by simp)
  · split at hrun
    · exact absurd hrun (by simp)
    · simp only [Prod.mk.injEq, Resp.createdTicket.injEq] at hrun
      obtain ⟨hsv, hdb⟩ := hrun
      subst hsv
      subst hdb
      constructor
      · rw [hookedSave_version_new]
      · unfold DB.eventCount
        simp [List.filter_append]

/-- A successful comment that was flagged as the first response wrote the
ticket back with its version bumped by one and appended exactly one
timeline event for the ticket. -/
theorem commentWriteFacts (db : DB) (actor : User) (tid : Nat) (content : String)
    (ctype : CommentType) (now : Nat) (t : Ticket) (c : CommentDoc) (db2 : DB)
    (hfind : db.findTicket tid = some t)
    (hfr : t.firstResponseAt = none)
    (hrun : addComment db actor tid content ctype now = (Resp.createdComment c, db2))
    (hflag : c.isFirstResponse = true) :
    (db2.findTicket tid).map Ticket.version = some (t.version + 1) ∧
    db2.eventCount tid = db.eventCount tid + 1 := by
  unfold addComment at hrun
  split at hrun
  · exact absurd hrun (by simp)
  · simp only [hfind] at hrun
    split at hrun
    · exact absurd hrun (by simp)
    · split at hrun
      · exact absurd hrun (by simp)
      · simp only [Prod.mk.injEq, Resp.createdComment.injEq] at hrun
        obtain ⟨hc, hdb⟩ := hrun
        subst hc
        subst hdb
        have hisf : (db.commentCount t.id == 0 && (ctype == CommentType.comment)) = true := hflag
        simp only [hisf]
        constructor
        · have hdne : ({ t with firstResponseAt := some now } : Ticket) ≠ t := by
            intro h
            have h2 := congrArg Ticket.firstResponseAt h
            rw [hfr] at h2
            simp at h2
          have hid : (hookedSave t { t with firstResponseAt := some now } false now).id = t.id :=
            hookedSave_id _ _ _ _
          have hfind2 : db.tickets.find? (fun u => u.id == tid) = some t := hfind
          have hfs := find?_save db.tickets tid t _ hfind2 hid
          show ((db.tickets.map (fun u =>
              if u.id == (hookedSave t { t with firstResponseAt := some now } false now).id
              then hookedSave t { t with firstResponseAt := some now } false now
              else u)).find? (fun u => u.id == tid)).map Ticket.version
            = some (t.version + 1)
          rw [hfs]
          simp [hookedSave_version t _ now hdne]
        · have hid0 : t.id = tid := findTicket_id db tid t hfind
          unfold DB.eventCount
          simp [hisf, DB.saveTicket, List.filter_append, hid0]

/-- The bulk-assign timeline loop writes at least one event for every ticket
id that resolves to a stored document. -/
theorem bulk_events_count (db1 : DB) (ids : List Nat) (uid tid : Nat) {u : Ticket}
    (hmem : tid ∈ ids) (hfound : db1.findTicket tid = some u) :
    1 ≤ ((ids.filterMap (fun i =>
        match db1.findTicket i with
        | some _ => some ({ ticket := i, user := uid, action := "assigned", field := none } : TimelineEvent)
        | none => none)).filter (fun e => e.ticket == tid)).length := by
  have hev : ({ ticket := tid, user := uid, action := "assigned", field := none } : TimelineEvent)
      ∈ ids.filterMap (fun i =>
        match db1.findTicket i with
        | some _ => some ({ ticket := i, user := uid, action := "assigned", field := none } : TimelineEvent)
        | none => none) := by
    refine List.mem_filterMap.mpr ⟨tid, hmem, ?_⟩
    rw [hfound]
  exact List.length_pos_of_mem (List.mem_filter.mpr ⟨hev, by simp⟩)

/-- A successful bulk assign rewrites the assignee of every listed stored
ticket in place — version and updatedAt untouched, because updateMany bypasses
the save hook — while appending at least one assigned event per listed stored
ticket. -/
theorem bulkWriteFacts (db : DB) (actor : User) (ids : List Nat) (a : Option Nat)
    (n : Nat) (db2 : DB)
    (hrun : bulkAssign db actor ids a = (Resp.bulkOk n, db2)) :
    ∀ tid t, db.findTicket tid = some t → ids.contains tid = true →
      db2.findTicket tid = some { t with assignedTo := a } ∧
      ({ t with assignedTo := a } : Ticket).version = t.version ∧
      db.eventCount tid + 1 ≤ db2.eventCount tid := by
  unfold bulkAssign at hrun
  split at hrun
  · exact absurd hrun (by simp)
  · split at hrun
    · exact absurd hrun (by simp)
    · split at hrun
      · exact absurd hrun (by simp)
      · simp only [Prod.mk.injEq, Resp.bulkOk.injEq] at hrun
        obtain ⟨hn, hdb⟩ := hrun
        subst hdb
        intro tid t hfind hcont
        have hid0 : t.id = tid := findTicket_id db tid t hfind
        have hfl : ∀ v : Ticket,
            ((if ids.contains v.id then { v with assignedTo := a } else v) : Ticket).id = v.id := by
          intro v
          split <;> rfl
        have hfind2 : db.tickets.find? (fun u => u.id == tid) = some t := hfind
        have hmap := find?_map_of_found db.tickets tid t _ hfl hfind2
        have hft : ((if ids.contains t.id then { t with assignedTo := a } else t) : Ticket)
            = { t with assignedTo := a } := by
          rw [hid0, hcont]
          rfl
        refine ⟨?_, rfl, ?_⟩
        · show (db.tickets.map (fun v =>
              if ids.contains v.id then { v with assignedTo := a } else v)).find?
              (fun u => u.id == tid) = some { t with assignedTo := a }
          rw [hmap, hft]
        · have hmem : tid ∈ ids := List.elem_iff.mp hcont
          unfold DB.eventCount
          simp only [List.filter_append, List.length_append]
          apply Nat.add_le_add_left
          apply bulk_events_count
          · exact hmem
          · show (db.tickets.map (fun v =>
                if ids.contains v.id then { v with assignedTo := a } else v)).find?
                (fun u => u.id == tid) = some { t with assignedTo := a }
            rw [hmap, hft]

/-- The fixture ticket as stored after the bulk assignment to the agent. -/
def c1bulkTicket : Ticket := { wTicket with assignedTo := some 2 }

/-- Counterexample for C1: a successful, state-changing bulk assign.  The
stored assignee changes (so the operation is state-changing and a timeline
event is written), yet the stored version is still 0 — updateMany bypasses the
pre-save hook, so no increment happens, contradicting the claim for
bulkAssign. -/
theorem c1_counterexample :
    (bulkAssign wDB wAdmin [10] (some 2)).1 = Resp.bulkOk 1 ∧
    wTicket.assignedTo ≠ some 2 ∧
    (bulkAssign wDB wAdmin [10] (some 2)).2.findTicket 10 = some c1bulkTicket ∧
    c1bulkTicket.version = 0 ∧ wTicket.version = 0 ∧
    (bulkAssign wDB wAdmin [10] (some 2)).2.eventCount 10 = wDB.eventCount 10 + 1 := by
  refine ⟨by decide, by decide, by decide, by decide, by decide, by decide⟩

/-- C1 (amended): create stores the new ticket at version 0 with one created
event; a successful applyUpdate, assign, setStatus or setPriority that changed
the stored ticket increments its version by exactly one and writes at least
one (for the narrow endpoints: exactly one) TimelineEvent referencing the
ticket; a comment flagged as first response bumps the ticket version by one
with its commented event; bulkAssign, however, rewrites the assignee of every
listed stored ticket without touching version (updateMany bypasses the
pre-save hook) while still appending at least one event per affected ticket. -/
theorem c1_amended_version_and_audit :
    (∀ (db : DB) (actor : User) (newId : Nat) (title descr : String)
        (pr : Option Priority) (cat : Option Category) (now : Nat)
        (saved : Ticket) (db2 : DB),
        createTicket db actor newId title descr pr cat now = (Resp.createdTicket saved, db2) →
        saved.version = 0 ∧ db2.eventCount newId = db.eventCount newId + 1) ∧
    (∀ (db : DB) (actor : User) (tid : Nat) (req : UpdateReq) (now : Nat)
        (t saved : Ticket) (db2 : DB),
        db.findTicket tid = some t →
        patchTicket db actor tid req now = (Resp.ok saved, db2) →
        saved ≠ t →
        saved.version = t.version + 1 ∧ db2.findTicket tid = some saved ∧
          db.eventCount tid + 1 ≤ db2.eventCount tid) ∧
    (∀ (db : DB) (actor : User) (tid : Nat) (a : Option Nat) (now : Nat)
        (t saved : Ticket) (db2 : DB),
        db.findTicket tid = some t →
        assignTicket db actor tid a now = (Resp.ok saved, db2) →
        (saved ≠ t → saved.version = t.version + 1) ∧
          db2.findTicket tid = some saved ∧
          db2.eventCount tid = db.eventCount tid + 1) ∧
    (∀ (db : DB) (actor : User) (tid : Nat) (status : String) (now : Nat)
        (t saved : Ticket) (db2 : DB),
        db.findTicket tid = some t →
        setStatusRoute db actor tid status now = (Resp.ok saved, db2) →
        (saved ≠ t → saved.version = t.version + 1) ∧
          db2.findTicket tid = some saved ∧
          db2.eventCount tid = db.eventCount tid + 1) ∧
    (∀ (db : DB) (actor : User) (tid : Nat) (priority : String) (now : Nat)
        (t saved : Ticket) (db2 : DB),
        db.findTicket tid = some t →
        setPriorityRoute db actor tid priority now = (Resp.ok saved, db2) →
        (saved ≠ t → saved.version = t.version + 1) ∧
          db2.findTicket tid = some saved ∧
          db2.eventCount tid = db.eventCount tid + 1) ∧
    (∀ (db : DB) (actor : User) (tid : Nat) (content : String) (ctype : CommentType)
        (now : Nat) (t : Ticket) (c : CommentDoc) (db2 : DB),
        db.findTicket tid = some t → t.firstResponseAt = none →
        addComment db actor tid content ctype now = (Resp.createdComment c, db2) →
        c.isFirstResponse = true →
        (db2.findTicket tid).map Ticket.version = some (t.version + 1) ∧
          db2.eventCount tid = db.eventCount tid + 1) ∧
    (∀ (db : DB) (actor : User) (ids : List Nat) (a : Option Nat) (n : Nat) (db2 : DB),
        bulkAssign db actor ids a = (Resp.bulkOk n, db2) →
        ∀ tid t, db.findTicket tid = some t → ids.contains tid = true →
          db2.findTicket tid = some { t with assignedTo := a } ∧
          ({ t with assignedTo := a } : Ticket).version = t.version ∧
          db.eventCount tid + 1 ≤ db2.eventCount tid) := by
  refine ⟨?_, ?_, ?_, ?_, ?_, ?_, ?_⟩
  · intro db actor newId title descr pr cat now saved db2 hrun
    exact createWriteFacts db actor newId title descr pr cat now saved db2 hrun
  · intro db actor tid req now t saved db2 hfind hrun hne
    exact patchWriteFacts db actor tid req now t saved db2 hfind hrun hne
  · intro db actor tid a now t saved db2 hfind hrun
    exact assignWriteFacts db actor tid a now t saved db2 hfind hrun
  · intro db actor tid status now t saved db2 hfind hrun
    exact statusWriteFacts db actor tid status now t saved db2 hfind hrun
  · intro db actor tid priority now t saved db2 hfind hrun
    exact priorityWriteFacts db actor tid priority now t saved db2 hfind hrun
  · intro db actor tid content ctype now t c db2 hfind hfr hrun hflag
    exact commentWriteFacts db actor tid content ctype now t c db2 hfind hfr hrun hflag
  · intro db actor ids a n db2 hrun
    exact bulkWriteFacts db actor ids a n db2 hrun

/-- A PATCH body used by the C1 witness: correct version token, new title. -/
def c1req : UpdateReq := { emptyReq with version := some 0, title := some "Title2" }

/-- The stored fixture ticket after the C1 witness PATCH. -/
def c1saved : Ticket := { wTicket with title := "Title2", version := 1, updatedAt := 99 }

/-- Witness for C1 (amended): a concrete state-changing PATCH on the fixture
ticket bumps the version from 0 to 1, stores the new document and adds a
timeline event. -/
theorem c1_witness :
    c1saved.version = wTicket.version + 1 ∧
    (patchTicket wDB wAdmin 10 c1req 99).2.findTicket 10 = some c1saved ∧
    wDB.eventCount 10 + 1 ≤ (patchTicket wDB wAdmin 10 c1req 99).2.eventCount 10 :=
  c1_amended_version_and_audit.2.1 wDB wAdmin 10 c1req 99 wTicket c1saved
    (patchTicket wDB wAdmin 10 c1req 99).2 (by decide) (by decide) (by decide)
